import Mathlib

/-!
# node-pinba: the load-time entry point of the `pinba_bindings` addon

The whole program is `src/pinba_bindings.cc`:

    void InitPinba(Handle<Object> target) {
        HandleScope scope;
    }

    NODE_MODULE(pinba_bindings, InitPinba)

`InitPinba` is embedded once, as a state-passing function written against the
host interface it uses (`HandleScope`), and is read over two host states:
`Isolate`, the bare state of the runtime, and `Traced`, the same state
together with the log of the host operations performed on it.  The host's own
pieces that the file only uses (`Handle`, `Object`, `HandleScope`,
`NODE_MODULE`, the module loader) come from `<node.h>`, which is not part of
the repository; they are modelled from the specification.
-/

set_option linter.unusedVariables false

namespace NodePinba

/-! ## Host data model -/

/-- Modelled from the spec: `Handle<Object>` (declared in the host headers) is
an opaque reference to an object; here the address of the object in the
host heap. -/
abbrev Handle := Nat

/-- Modelled from the spec: the values a property of an exports object can
hold (functions, constants, other objects). -/
inductive JSValue where
  | undefined
  | null
  | boolean (b : Bool)
  | number (n : Int)
  | string (s : String)
  | object (h : Handle)
  | func (name : String)
  deriving DecidableEq, Repr

/-- Modelled from the spec: one own property of an object, with its
enumerability flag. -/
structure Property where
  key : String
  value : JSValue
  enumerable : Bool
  deriving DecidableEq, Repr

/-- Modelled from the spec: `Object` (declared in the host headers), as the
list of its own properties. -/
structure JSObject where
  properties : List Property
  deriving DecidableEq, Repr

/-- The object the host creates for a module's exports: no own property. -/
def JSObject.empty : JSObject := { properties := [] }

/-- The keys the host sees when it inspects an object: the names of its
enumerable own properties. -/
def JSObject.keys (o : JSObject) : List String :=
  (o.properties.filter (fun p => p.enumerable)).map (fun p => p.key)

/-- Modelled from the spec: the state of the hosting runtime that an addon
initializer could touch.  `handle_scopes` is the stack of open handle scopes,
innermost first, each with the local handles created in it. -/
structure Isolate where
  heap : List JSObject
  handle_scopes : List (List Handle)
  globals : List (String × JSValue)
  timers : List Nat
  persistent_handles : List Handle
  callbacks : List String
  deriving DecidableEq, Repr

/-- Failures the host operations used here can signal. -/
inductive HostError where
  | scope_underflow
  deriving DecidableEq, Repr

/-- The object a handle refers to, if any. -/
def Isolate.deref (iso : Isolate) (h : Handle) : Option JSObject :=
  iso.heap[h]?

/-- Modelled from the spec: the host creates a fresh, empty object and hands
out a handle to it. -/
def Isolate.new_object (iso : Isolate) : Handle × Isolate :=
  (iso.heap.length, { iso with heap := iso.heap ++ [JSObject.empty] })

/-- Modelled from the spec: what the host does when a handle scope is
acquired: a new, empty scope is put on top of the scope stack. -/
def Isolate.push_scope (iso : Isolate) : Isolate :=
  { iso with handle_scopes := [] :: iso.handle_scopes }

/-- Modelled from the spec: what the host does when a handle scope is
released: the innermost scope goes, together with the local handles created
in it.  Closing a scope when none is open is a host failure. -/
def Isolate.pop_scope (iso : Isolate) : Except HostError Isolate :=
  match iso.handle_scopes with
  | [] => .error .scope_underflow
  | _ :: outer => .ok { iso with handle_scopes := outer }

/-! ## The log of host operations -/

/-- One host operation, as it is recorded in the log.  A scope is named by
its level: the depth of the scope stack while it is the innermost scope.
`scope_closed` also records the local handles the scope held when it was
released. -/
inductive HostEvent where
  | object_created (h : Handle)
  | init_called (target : Handle)
  | scope_opened (level : Nat)
  | scope_closed (level : Nat) (locals : List Handle)
  deriving DecidableEq, Repr

/-- A host state together with the log of the host operations performed on
it, oldest first. -/
structure Traced where
  iso : Isolate
  log : List HostEvent
  deriving DecidableEq, Repr

/-! ## The host interface -/

/-- Modelled from the spec: `HandleScope` (declared in the host headers), over
a host state `σ`: its constructor acquires a scoped local handle context,
its destructor releases it. -/
class HandleScope (σ : Type) where
  construct : σ → σ
  destruct : σ → Except HostError σ

/-- Modelled from the spec: what the host's loader does around an
initializer: it creates the exports object, and it calls the initialization
function with one argument. -/
class ModuleHost (σ : Type) where
  new_object : σ → Handle × σ
  call_init : (Handle → σ → Except HostError σ) → Handle → σ → Except HostError σ

/-- The bare host state. -/
instance : HandleScope Isolate where
  construct := Isolate.push_scope
  destruct := Isolate.pop_scope

/-- The bare host state. -/
instance : ModuleHost Isolate where
  new_object := Isolate.new_object
  call_init := fun f h iso => f h iso

/-- The logged host state: every operation acts on the state as it does on
the bare host, and is appended to the log. -/
instance : HandleScope Traced where
  construct := fun t =>
    { iso := t.iso.push_scope
      log := t.log ++ [.scope_opened (t.iso.handle_scopes.length + 1)] }
  destruct := fun t =>
    match t.iso.pop_scope with
    | .ok iso2 =>
      .ok { iso := iso2
            log := t.log ++
              [.scope_closed t.iso.handle_scopes.length (t.iso.handle_scopes.headD [])] }
    | .error e => .error e

/-- The logged host state: every operation acts on the state as it does on
the bare host, and is appended to the log. -/
instance : ModuleHost Traced where
  new_object := fun t =>
    ((t.iso.new_object).1,
      { iso := (t.iso.new_object).2
        log := t.log ++ [.object_created (t.iso.new_object).1] })
  call_init := fun f h t => f h { iso := t.iso, log := t.log ++ [.init_called h] }

/-! ## The source file -/

/-- `void InitPinba(Handle<Object> target) { HandleScope scope; }`:
the declaration `HandleScope scope;` runs the constructor, the body holds no
other statement, and the destructor of `scope` runs at the closing brace. -/
def InitPinba {σ : Type} [HandleScope σ] (target : Handle) (s : σ) : Except HostError σ :=
  let s1 := HandleScope.construct s
  HandleScope.destruct s1

/-- Modelled from the spec: the registration record that `NODE_MODULE`
(a host header definition) emits: the module's name and its initialization
function, which takes one argument, the exports handle. -/
structure node_module_struct (σ : Type) where
  register_func : Handle → σ → Except HostError σ
  modname : String

/-- Modelled from the spec: `NODE_MODULE(modname, regfunc)`. -/
def NODE_MODULE {σ : Type} (modname : String) (regfunc : Handle → σ → Except HostError σ) :
    node_module_struct σ :=
  { register_func := regfunc, modname := modname }

/-- `NODE_MODULE(pinba_bindings, InitPinba)`. -/
def pinba_bindings_module {σ : Type} [HandleScope σ] : node_module_struct σ :=
  NODE_MODULE ("pinba_bindings") InitPinba

/-- Modelled from the spec: the host's native-module loader creates the
exports object, invokes the registered initialization function with the
exports handle as its single argument, and hands the exports back. -/
def Loader.load {σ : Type} [ModuleHost σ] (m : node_module_struct σ) (s : σ) :
    Except HostError (Handle × σ) :=
  match ModuleHost.call_init m.register_func (ModuleHost.new_object s).1
      (ModuleHost.new_object s).2 with
  | .ok s2 => .ok ((ModuleHost.new_object s).1, s2)
  | .error e => .error e

/-- Running the initializer `n` times in a row on the same exports handle. -/
def repeat_init (f : Handle → Isolate → Except HostError Isolate) :
    Nat → Handle → Isolate → Except HostError Isolate
  | 0, _, iso => .ok iso
  | n + 1, target, iso =>
    match f target iso with
    | .ok iso2 => repeat_init f n target iso2
    | .error e => .error e

/-- A host state with an exports object that already has members, two open
handle scopes, and registered globals, timers, handles and callbacks. -/
def sample_isolate : Isolate :=
  { heap := [{ properties := [{ key := "version", value := .number 1, enumerable := true }] },
             JSObject.empty]
    handle_scopes := [[0], [1, 0]]
    globals := [("process", .object 1)]
    timers := [7]
    persistent_handles := [0]
    callbacks := ["exit"] }

/-! ## Shared lemmas -/

theorem Isolate.pop_scope_push_scope (iso : Isolate) :
    iso.push_scope.pop_scope = .ok iso := rfl

theorem InitPinba_eq_ok (target : Handle) (iso : Isolate) :
    InitPinba target iso = .ok iso := rfl

theorem repeat_init_InitPinba (n : Nat) (target : Handle) (iso : Isolate) :
    repeat_init InitPinba n target iso = .ok iso := by
  induction n with
  | zero => rfl
  | succ k ih => simp only [repeat_init, InitPinba_eq_ok, ih]

theorem Isolate.deref_new_object (iso : Isolate) :
    (iso.new_object).2.deref (iso.new_object).1 = some JSObject.empty := by
  simp [Isolate.new_object, Isolate.deref]

theorem Loader.load_pinba (iso : Isolate) :
    Loader.load pinba_bindings_module iso = .ok ((iso.new_object).1, (iso.new_object).2) := rfl

theorem InitPinba_traced (target : Handle) (t : Traced) :
    InitPinba target t =
      .ok { iso := t.iso
            log := t.log ++ [.scope_opened (t.iso.handle_scopes.length + 1)] ++
              [.scope_closed (t.iso.handle_scopes.length + 1) []] } := rfl

/-! ## The claims -/

/-- C1: for every exports handle and every host state, `InitPinba` succeeds
and the object the exports handle refers to is the same after the call as
before it: no own property is added, removed or changed. -/
theorem C1_exports_unchanged (target : Handle) (iso : Isolate) :
    ∃ iso2, InitPinba target iso = .ok iso2 ∧ iso2.deref target = iso.deref target :=
  ⟨iso, InitPinba_eq_ok target iso, rfl⟩

/-- C2: when the loader creates a fresh, empty exports object and runs the
registered initializer on it, the load succeeds, the exports handle it hands
back refers to an object (it is defined), and that object has no enumerable
own property: its list of keys is empty. -/
theorem C2_loaded_exports_empty (iso : Isolate) :
    ∃ target iso2 obj,
      Loader.load pinba_bindings_module iso = .ok (target, iso2) ∧
      iso2.deref target = some obj ∧
      obj.keys = [] :=
  ⟨(iso.new_object).1, (iso.new_object).2, JSObject.empty,
    Loader.load_pinba iso, Isolate.deref_new_object iso, rfl⟩

/-- C3: for every exports handle and every host state, `InitPinba` returns
the success result; it never returns an error. -/
theorem C3_never_fails (target : Handle) (iso : Isolate) :
    (∃ iso2, InitPinba target iso = .ok iso2) ∧ ∀ e, InitPinba target iso ≠ .error e := by
  refine ⟨⟨iso, InitPinba_eq_ok target iso⟩, ?_⟩
  intro e h
  rw [InitPinba_eq_ok] at h
  cases h

/-- C4: running `InitPinba` any `n ≥ 1` times in a row gives the same result
as running it once, and that result is the starting host state itself, so
nothing accumulates across repeated loads. -/
theorem C4_load_idempotent (n : Nat) (target : Handle) (iso : Isolate) (h : 1 ≤ n) :
    repeat_init InitPinba n target iso = InitPinba target iso ∧
    InitPinba target iso = .ok iso := by
  refine ⟨?_, InitPinba_eq_ok target iso⟩
  rw [repeat_init_InitPinba, InitPinba_eq_ok]

/-- C4 at a concrete input: three loads in a row on a populated host state. -/
theorem C4_load_idempotent_witness :
    1 ≤ 3 ∧
    (repeat_init InitPinba 3 0 sample_isolate = InitPinba 0 sample_isolate ∧
     InitPinba 0 sample_isolate = .ok sample_isolate) :=
  ⟨by decide, C4_load_idempotent 3 0 sample_isolate (by decide)⟩

/-- C5: for every starting host state, `InitPinba` succeeds and the global
symbols, timers, persistent handles and registered callbacks of the host are
the same after the call as before it. -/
theorem C5_nothing_outlives_call (target : Handle) (iso : Isolate) :
    ∃ iso2, InitPinba target iso = .ok iso2 ∧
      iso2.globals = iso.globals ∧
      iso2.timers = iso.timers ∧
      iso2.persistent_handles = iso.persistent_handles ∧
      iso2.callbacks = iso.callbacks :=
  ⟨iso, InitPinba_eq_ok target iso, rfl, rfl, rfl, rfl⟩

/-- C6: on every host state, whatever was logged before, `InitPinba` performs
exactly two host operations, in this order: it opens one handle scope on top
of the scope stack, and it closes the scope of that same level, which holds
no local handle when it is released.  Nothing is logged in between, and the
host state is left as it was; read on the bare host, the scope stack after
the call, in depth and contents, is the stack before the call. -/
theorem C6_handle_scope_released (target : Handle) (iso : Isolate) (log : List HostEvent) :
    InitPinba target ({ iso := iso, log := log } : Traced) =
      .ok { iso := iso
            log := log ++ [.scope_opened (iso.handle_scopes.length + 1),
                           .scope_closed (iso.handle_scopes.length + 1) []] } ∧
    ∃ iso2, InitPinba target iso = .ok iso2 ∧
      iso2.handle_scopes = iso.handle_scopes ∧
      iso2.handle_scopes.length = iso.handle_scopes.length := by
  refine ⟨?_, iso, InitPinba_eq_ok target iso, rfl, rfl⟩
  rw [InitPinba_traced]
  simp

/-- C8: from the same starting host state, `InitPinba` succeeds with the same
resulting host state whichever exports handle it is given (the initializer
never reads its argument); with both handles equal this says that equal
inputs give equal results. -/
theorem C8_independent_of_target (t1 t2 : Handle) (iso : Isolate) :
    InitPinba t1 iso = InitPinba t2 iso ∧
    ∃ iso2, InitPinba t1 iso = .ok iso2 ∧ InitPinba t2 iso = .ok iso2 :=
  ⟨rfl, iso, InitPinba_eq_ok t1 iso, InitPinba_eq_ok t2 iso⟩

end NodePinba
